import Mathlib

/-!
# Formal model of the Daxco payroll transformation / validation core

Shallow embedding of `backend/helper_functions/daxco_transformation.py`,
`validate_transformation.py`, `validation_result.py`, `safe_get.py` and
`parse_currency_value.py`.

Modelling conventions:
* Python cell values (strings or floats) are modelled by `Value`
  (`VStr`/`VNum` with exact rationals for floats).  Pandas `NaN` cells are
  already mapped to `VStr ""` by `safe_get` in the source, so `Value` needs
  no `NaN` constructor.
* String primitives (`strip`, `lower`, `split`, `replace`, `title`) are
  re-implemented on `List Char`, matching Python's behaviour on the ASCII
  data this program handles.
* `float(s)` is modelled by `pyFloat?` over the decimal grammar
  (sign, digits, decimal point, exponent).  The special forms
  `inf`/`nan`/underscore separators are not modelled, and values are exact
  rationals rather than binary doubles; the sign tests the code performs are
  unaffected.
* For a numeric (float) input `x`, Python guarantees `float(str(x)) == x`
  and `str(x)` is non-empty and free of `$`, `,` and surrounding
  whitespace; the clean-and-reparse step of the validators is therefore
  modelled on `VNum q` as returning `q` directly.
-/

namespace Daxco

/-- A Python value as it appears in a row cell: a string or a number. -/
inductive Value where
  | VStr : String → Value
  | VNum : ℚ → Value
deriving DecidableEq, Repr

/-- Python truthiness for the values that occur here:
the empty string and the number `0` are falsy, everything else truthy. -/
def Value.truthy : Value → Bool
  | .VStr s => s ≠ ""
  | .VNum q => q ≠ 0

/-- Python `a or b` restricted to `Value`. -/
def pyOr (a b : Value) : Value := if a.truthy then a else b

/-- Python `str.strip()` whitespace test (ASCII subset actually occurring). -/
def isSpace (c : Char) : Bool := c.isWhitespace

/-- Python `s.strip()` on a character list. -/
def trimChars (cs : List Char) : List Char :=
  ((cs.dropWhile isSpace).reverse.dropWhile isSpace).reverse

/-- Python `s.lower()` (ASCII). -/
def lowerChars (cs : List Char) : List Char := cs.map Char.toLower

/-- `s.lower().strip()` as used for name normalization, as a `String` map. -/
def lowstrip (s : String) : List Char := trimChars (lowerChars s.toList)

/-- `str(s).strip()` as used for identity-key comparison. -/
def keynorm (s : String) : List Char := trimChars s.toList

/-- Value of a digit run, most significant first. -/
def digitsToNat (ds : List Char) : Nat :=
  ds.foldl (fun n c => 10 * n + (c.toNat - '0'.toNat)) 0

/-- Optional sign; returns (isNegative, rest). -/
def parseSign : List Char → Bool × List Char
  | '+' :: cs => (false, cs)
  | '-' :: cs => (true, cs)
  | cs => (false, cs)

/-- Exponent suffix after `e`/`E`: optional sign then a non-empty digit run
consuming the whole rest.  Returns `(isNegative, magnitude)`. -/
def parseExp (cs : List Char) : Option (Bool × Nat) :=
  let (eneg, cs) := parseSign cs
  let eds := cs.takeWhile Char.isDigit
  if eds.isEmpty ∨ ¬ (cs.dropWhile Char.isDigit).isEmpty then none
  else some (eneg, digitsToNat eds)

/-- The rational `± mant · 10^(±e) / 10^scale`, assembled with `mkRat` so
that the value is a normalized numerator/denominator pair. -/
def scaledValue (neg : Bool) (mant scale : Nat) (eneg : Bool) (e : Nat) : ℚ :=
  let num : ℤ := if neg then -(mant : ℤ) else (mant : ℤ)
  if eneg then mkRat num (10 ^ (scale + e))
  else mkRat (num * 10 ^ e) (10 ^ scale)

/-- Python `float(s)` on the decimal grammar
`[sign] digits [. digits] [(e|E) [sign] digits]` (at least one mantissa
digit).  `none` models Python raising `ValueError`. -/
def pyFloat? (cs : List Char) : Option ℚ :=
  let (neg, cs) := parseSign cs
  let ip := cs.takeWhile Char.isDigit
  let cs := cs.dropWhile Char.isDigit
  let (fp, cs) :=
    match cs with
    | '.' :: rest => (rest.takeWhile Char.isDigit, rest.dropWhile Char.isDigit)
    | _ => ([], cs)
  if ip.isEmpty ∧ fp.isEmpty then none
  else
    let mant := digitsToNat (ip ++ fp)
    match cs with
    | [] => some (scaledValue neg mant fp.length false 0)
    | 'e' :: rest =>
        match parseExp rest with
        | some (eneg, e) => some (scaledValue neg mant fp.length eneg e)
        | none => none
    | 'E' :: rest =>
        match parseExp rest with
        | some (eneg, e) => some (scaledValue neg mant fp.length eneg e)
        | none => none
    | _ => none

/-- `str(raw).replace(chr(36), chr(0)).replace(... comma ...).strip()`:
drop every `$` and `,`, then strip surrounding whitespace
(the cleaning step of `validate_hours_or_amount` / `parse_currency_value`). -/
def cleanNumeric (s : String) : List Char :=
  trimChars (s.toList.filter (fun c => c ≠ '$' ∧ c ≠ ','))

/-- `validate_hours_or_amount` (validate_transformation.py, lines 69-96):
clean the raw value, parse it as a float (empty cleans to `0.0`), flag
invalid when parsing fails (value `0.0`) or when the parsed value is
negative (value kept).  A numeric input round-trips through `str`/`float`
unchanged. -/
def validate_hours_or_amount (raw : Value) : Bool × ℚ :=
  match raw with
  | .VStr s =>
      let s' := cleanNumeric s
      if s' = [] then (true, 0)
      else
        match pyFloat? s' with
        | none => (false, 0)
        | some v => (decide (0 ≤ v), v)
  | .VNum q => (decide (0 ≤ q), q)

/-- `parse_currency_value` (parse_currency_value.py): same cleaning, `0.0`
fallback on empty or unparseable input. -/
def parse_currency_value (val : Value) : ℚ :=
  match val with
  | .VStr s =>
      let s' := cleanNumeric s
      if s' = [] then 0
      else
        match pyFloat? s' with
        | none => 0
        | some v => v
  | .VNum q => q

/-- A directory employee as consumed by `validate_employee_id`
(`employee_id` reaches the comparison through `str(...)`, so it is kept as
a string). -/
structure Employee where
  employee_id : String
  first_name : String
  last_name : String
deriving DecidableEq, Repr

/-- The projection of a row dict that `validate_employee_id` reads
(`row.get` of `employee_id`, `first_name`, `last_name`). -/
structure IdRow where
  employee_id : String
  first_name : String
  last_name : String
deriving DecidableEq, Repr

/-- `validate_employee_id` (validate_transformation.py, lines 6-66). -/
def validate_employee_id (row : IdRow) (employees : List Employee) : Bool × List String :=
  if employees = [] then (true, [])
  else
    let first_name := row.first_name
    let last_name := row.last_name
    let employee_id := row.employee_id
    if employee_id ≠ "" ∧
        employees.any (fun emp => keynorm emp.employee_id == keynorm employee_id) then
      (true, [])
    else
      let row_first := if first_name ≠ "" then lowstrip first_name else []
      let row_last := if last_name ≠ "" then lowstrip last_name else []
      let possible_matches :=
        if first_name ≠ "" ∨ last_name ≠ "" then
          (employees.filter (fun emp =>
              (row_first ≠ [] && row_first == lowstrip emp.first_name) &&
              (row_last ≠ [] && row_last == lowstrip emp.last_name))).map
            (fun emp => emp.employee_id)
        else []
      if possible_matches ≠ [] then (false, possible_matches)
      else (false, [])

/-- The spec's `MatchOutcome` classification of the matcher's
`(valid, possible_ids)` result. -/
inductive MatchOutcome where
  | Exact : MatchOutcome
  | NoMatch : MatchOutcome
  | Ambiguous : List String → MatchOutcome
deriving DecidableEq, Repr

/-- Map the code's result pair onto the spec's `MatchOutcome`. -/
def classifyOutcome : Bool × List String → MatchOutcome
  | (true, _) => .Exact
  | (false, []) => .NoMatch
  | (false, l) => .Ambiguous l

/-- Modelled from the spec's words (§4.3): "an entity is a candidate iff
both first and last name equal the record's" after lowercase-trim
normalization — with no non-emptiness requirement.  Used to compare the
spec sentence against the source's candidate rule. -/
def specNameCandidates (row : IdRow) (employees : List Employee) : List String :=
  (employees.filter (fun emp =>
      lowstrip row.first_name == lowstrip emp.first_name &&
      lowstrip row.last_name == lowstrip emp.last_name)).map
    (fun emp => emp.employee_id)

/-- The source's actual candidate rule, hoisted out of
`validate_employee_id`: both of the record's normalized name tokens must be
non-empty and equal the entity's. -/
def nameCandidates (row : IdRow) (employees : List Employee) : List String :=
  (employees.filter (fun emp =>
      (lowstrip row.first_name ≠ [] && lowstrip row.first_name == lowstrip emp.first_name) &&
      (lowstrip row.last_name ≠ [] && lowstrip row.last_name == lowstrip emp.last_name))).map
    (fun emp => emp.employee_id)

/-- One step of Python `str.title()`: upper-case an alphabetic character
that follows a non-alphabetic one, lower-case the rest. -/
def titleChars : List Char → Bool → List Char
  | [], _ => []
  | c :: cs, prevAlpha =>
      (if c.isAlpha then (if prevAlpha then c.toLower else c.toUpper) else c) ::
        titleChars cs c.isAlpha

/-- Python `s.title()` (ASCII). -/
def pyTitle (s : String) : String := (titleChars s.toList false).asString

/-- A parsed CSV data row: cells addressed by column label.  Pandas returns
`NaN` for missing cells and `safe_get` maps those to the empty string, so a
missing label and an empty string cell are interchangeable here. -/
structure CsvRow where
  cells : List (String × Value)
deriving DecidableEq, Repr

/-- `safe_get` (safe_get.py): the cell under `col`, or the empty string
when the label is missing (or the cell was `NaN`). -/
def safe_get (row : CsvRow) (col : String) : Value :=
  match row.cells.find? (fun p => p.1 == col) with
  | some p => p.2
  | none => .VStr ""

/-- The text content of a name cell.  The name columns hold text; on a
numeric cell the source's `first.title()` would raise `AttributeError`,
which is outside the modelled behaviour. -/
def cellText : Value → String
  | .VStr s => s
  | .VNum _ => ""

/-- The `Output` dataclass (constants.py), with the fields the claims
depend on typed concretely: `hours_or_amount` may hold a raw cell value or
a parsed number, the `*_valid` companions start out unset. -/
structure Output where
  employee_id : String
  gross_to_net_code : String
  type_code : String
  hours_or_amount : Value
  temporary_rate : String
  distributed_dept_code : String
  first_name : String := ""
  last_name : String := ""
  department : Option String := none
  adjustments : ℚ := 0
  time_clock_hours : Value := .VStr ""
  scheduled_hours : Value := .VStr ""
  scheduled_payroll : Value := .VStr ""
  total_hours : Value := .VStr ""
  details : Value := .VStr ""
  employee_code : String := ""
  employee_id_valid : Option Bool := none
  possible_employee_ids : Option (List String) := none
  hours_or_amount_valid : Option Bool := none
  employee_code_valid : Option Bool := none
  possible_employee_codes : Option (List String) := none
  scheduled_payroll_valid : Option Bool := none
deriving DecidableEq, Repr

/-- The per-row body of the `daxco_transformation` loop
(daxco_transformation.py, lines 59-103), for one data row beneath the
header and the previously detected document-level `department`. -/
def daxco_transform_row (department : Option String) (row : CsvRow) : Output :=
  let first := safe_get row "Staff First Name"
  let last := safe_get row "Staff Last Name"
  let first_name := if first.truthy then pyTitle (cellText first) else ""
  let last_name := if last.truthy then pyTitle (cellText last) else ""
  let emp_code := ""
  let dept_code := match department with
    | some s => if s ≠ "" then s else ""
    | none => ""
  let adjustments := parse_currency_value (safe_get row "Adjustments")
  let time_clock_hours := safe_get row "Time Clock Hours"
  let scheduled_hours := safe_get row "Scheduled Hours"
  let scheduled_payroll := safe_get row "Scheduled Payroll"
  let total_hours := safe_get row "Total Hours"
  let details := safe_get row "Details"
  { employee_id := emp_code,
    gross_to_net_code := "1",
    type_code := "REG",
    hours_or_amount := pyOr scheduled_payroll
      (pyOr scheduled_hours (pyOr time_clock_hours (.VNum 0))),
    temporary_rate := "",
    distributed_dept_code :=
      if dept_code ≠ "" then dept_code
      else match department with
        | some s => if s ≠ "" then s else "4287"
        | none => "4287",
    first_name := first_name,
    last_name := last_name,
    department := department,
    adjustments := adjustments,
    time_clock_hours := time_clock_hours,
    scheduled_hours := scheduled_hours,
    scheduled_payroll := scheduled_payroll,
    total_hours := total_hours,
    details := details,
    employee_code := emp_code }

/-- Modelled from the spec's words (§4.2): "first non-empty/non-zero value
among scheduled payroll, scheduled hours, time-clock hours, else literal
zero". -/
def specFirstNonEmptyNonZero (vs : List Value) : Value :=
  match vs.find? Value.truthy with
  | some v => v
  | none => .VNum 0

/-- The identity-relevant projection of `row.__dict__` that
`validate_employee_id` reads off an `Output`. -/
def idRowOf (o : Output) : IdRow :=
  ⟨o.employee_id, o.first_name, o.last_name⟩

/-- The per-row body of the `validate_transformation` loop
(validate_transformation.py, lines 126-155): run the two validators and
rebuild the row with title-cased names, the normalized amount and the
validity fields attached. -/
def validate_row (employees : List Employee) (row : Output) : Output :=
  let ev := validate_employee_id (idRowOf row) employees
  let hv := validate_hours_or_amount row.hours_or_amount
  { row with
      first_name := if row.first_name ≠ "" then pyTitle row.first_name else "",
      last_name := if row.last_name ≠ "" then pyTitle row.last_name else "",
      employee_id_valid := some ev.1,
      possible_employee_ids := some ev.2,
      hours_or_amount := .VNum hv.2,
      hours_or_amount_valid := some hv.1,
      employee_code_valid := some ev.1,
      possible_employee_codes := some ev.2,
      scheduled_payroll_valid := some true }

/-- `validate_transformation` (validate_transformation.py, lines 99-177),
restricted to the legacy row list and the aggregate flag: the new-format
`ValidationResult` re-runs the same validators on the same rows, so the
legacy rows carry all validation state.  `all_valid` is the conjunction
over rows of both validity flags. -/
def validate_transformation (data : List Output) (employees : List Employee) :
    List Output × Bool :=
  let rows := data.map (validate_row employees)
  (rows,
   rows.all (fun r => r.employee_id_valid.getD false && r.hours_or_amount_valid.getD false))

/-!
## difflib-based header detection

`daxco_transformation` locates the header row with
`difflib.get_close_matches(first_col.lower(), [STAFF], n=1, cutoff=0.7)`.
With a single possibility and `n=1` that call returns a non-empty list iff
`SequenceMatcher(None, STAFF, word).ratio() >= 0.7` (the two quick ratios
it also checks are documented upper bounds of `ratio`, so they cannot turn
the conjunction false on their own).  `ratio` is `2*M/T` where `T` is the
total length and `M` the number of matched characters found by the
recursive longest-matching-block decomposition below.  Junk handling is
vacuous here: no junk predicate is passed and `autojunk` only prunes
sequences of length ≥ 200 (not modelled); without junk the dynamic
program already returns a maximal block, so difflib's post-extension
loops cannot extend it and are omitted. -/

/-- `b2j` of `SequenceMatcher`: the ascending list of positions of `c` in
`b`. -/
def b2j (b : List Char) (c : Char) : List Nat :=
  (List.range b.length).filter (fun j => b.getD j ' ' == c)

/-- Inner loop of `find_longest_match`, one row `i`: fold over the
positions `j` of `a[i]` inside the `b` window, carrying the fresh `j2len`
row and the best block `(besti, bestj, bestsize)` so far.  `j2len` is the
previous row, consulted at `j-1`. -/
def flmRow (j2len : List (Nat × Nat)) (i : Nat) (js : List Nat)
    (best : Nat × Nat × Nat) : List (Nat × Nat) × (Nat × Nat × Nat) :=
  js.foldl
    (fun acc j =>
      let prev := if j = 0 then 0
        else match j2len.find? (fun p => p.1 == j - 1) with
          | some p => p.2
          | none => 0
      let k := prev + 1
      ((j, k) :: acc.1,
       if k > acc.2.2.2 then (i + 1 - k, j + 1 - k, k) else acc.2))
    ([], best)

/-- `SequenceMatcher.find_longest_match` over the windows
`a[alo:ahi]`, `b[blo:bhi]` (no junk): returns `(besti, bestj, bestsize)`. -/
def find_longest_match (a b : List Char) (alo ahi blo bhi : Nat) : Nat × Nat × Nat :=
  ((List.range' alo (ahi - alo)).foldl
    (fun st i =>
      flmRow st.1 i
        ((b2j b (a.getD i ' ')).filter (fun j => blo ≤ j && j < bhi)) st.2)
    ([], (alo, blo, 0))).2

/-- Total size `M` of the matching blocks of `get_matching_blocks`:
recursively take the longest match and recurse on both sides.  `fuel`
bounds the recursion depth; each recursive window is strictly smaller, so
`ahi + 1` fuel always suffices. -/
def matchTotal (a b : List Char) : Nat → Nat → Nat → Nat → Nat → Nat
  | 0, _, _, _, _ => 0
  | fuel + 1, alo, ahi, blo, bhi =>
      let r := find_longest_match a b alo ahi blo bhi
      if r.2.2 = 0 then 0
      else r.2.2 + matchTotal a b fuel alo r.1 blo r.2.1 +
        matchTotal a b fuel (r.1 + r.2.2) ahi (r.2.1 + r.2.2) bhi

/-- `SequenceMatcher(None, a, b).ratio() >= 0.7`, i.e. `2M/(|a|+|b|) ≥
7/10`, decided in exact integer arithmetic (the float literal `0.7` is
within `4·10⁻¹⁷` of `7/10`, far below the `1/(10·T)` granularity of the
compared fractions at any realistic line length). -/
def ratioGE70 (a b : List Char) : Bool :=
  20 * matchTotal a b (a.length + b.length + 1) 0 a.length 0 b.length ≥
    7 * (a.length + b.length)

/-- `difflib.get_close_matches(word, [s], n=1, cutoff=0.7) != []`. -/
def close_match_hit (s word : List Char) : Bool := ratioGE70 s word

/-- `line.split(chr(44))[0]`: the characters before the first comma. -/
def firstField (cs : List Char) : List Char := cs.takeWhile (fun c => c ≠ ',')

/-- Python `s.strip(chr(34))`: drop leading and trailing double quotes. -/
def stripQuotes (cs : List Char) : List Char :=
  ((cs.dropWhile (· == '"')).reverse.dropWhile (· == '"')).reverse

/-- The header test applied to one line (daxco_transformation.py, lines
45-48): first comma-delimited field, stripped of whitespace and quotes,
lower-cased, approximately compared against `staff first name`. -/
def isHeaderLine (line : String) : Bool :=
  close_match_hit "staff first name".toList
    (lowerChars (stripQuotes (trimChars (firstField line.toList))))

/-- The `header_indices` list (daxco_transformation.py, lines 44-49): the
indices produced by the `enumerate` loop, i.e. every line index whose
first field passes the header test, in ascending order. -/
def headerIndices (lines : List String) : List Nat :=
  (List.range lines.length).filter (fun i => isHeaderLine (lines.getD i ""))

/-- Header selection (daxco_transformation.py, lines 49-52): error when no
line matched (`raise ValueError`), otherwise the last collected index
(`header_indices[-1]`). -/
def find_header_idx (lines : List String) : Except String Nat :=
  match (headerIndices lines).getLast? with
  | none => .error "Could not find header row with 'Staff First Name'"
  | some i => .ok i

/-! ## Helper lemmas -/

/-- A flagged-valid amount is non-negative. -/
lemma valid_amount_nonneg (v : Value) :
    (validate_hours_or_amount v).1 = true → 0 ≤ (validate_hours_or_amount v).2 := by
  cases v with
  | VNum q =>
      simp [validate_hours_or_amount]
  | VStr s =>
      simp only [validate_hours_or_amount]
      split
      · simp
      · split
        · simp
        · simp

/-- Re-validating a number returns the number with its sign test. -/
lemma validate_hours_VNum (q : ℚ) :
    validate_hours_or_amount (.VNum q) = (decide (0 ≤ q), q) := rfl

lemma lowstrip_empty : lowstrip "" = [] := by decide

/-- The guarded normalization in the source equals plain normalization. -/
lemma cond_lowstrip (s : String) :
    (if s ≠ "" then lowstrip s else []) = lowstrip s := by
  by_cases h : s = ""
  · simp [h, lowstrip_empty]
  · simp [h]

/-- `validate_employee_id` on a non-empty directory, characterized: the
exact-key branch fires iff the key is non-empty and some entity key
matches after trimming; otherwise the result is invalid with exactly the
name candidates. -/
lemma validate_employee_id_eq (row : IdRow) (employees : List Employee)
    (hne : employees ≠ []) :
    validate_employee_id row employees =
      if row.employee_id ≠ "" ∧
          employees.any (fun e => keynorm e.employee_id == keynorm row.employee_id) then
        (true, [])
      else (false, nameCandidates row employees) := by
  unfold validate_employee_id
  rw [if_neg hne]
  dsimp only
  simp only [cond_lowstrip]
  by_cases hg : row.first_name ≠ "" ∨ row.last_name ≠ ""
  · rw [if_pos hg]
    split
    · rfl
    · change (if nameCandidates row employees ≠ [] then (false, nameCandidates row employees)
          else (false, [])) = (false, nameCandidates row employees)
      by_cases hnil : nameCandidates row employees = [] <;> simp [hnil]
  · rw [if_neg hg]
    push_neg at hg
    split
    · rfl
    · have hnil : nameCandidates row employees = [] := by
        simp [nameCandidates, hg.1, lowstrip_empty]
      rw [hnil]
      simp

/-! ## Claim theorems -/

/-- C5: the numeric field validator, for every raw string input, returns a
(valid, normalized) pair (totality is by construction): after stripping
`$`, `,` and surrounding whitespace, an empty string yields `(true, 0.0)`,
a non-empty unparseable string yields `(false, 0.0)`, a parsed negative
number yields `(false, value)` — invalidity is only the flag, the value
is not clamped; in particular `"-50"` yields `(false, -50.0)`. -/
theorem C5_numeric_validator :
    (∀ s : String, cleanNumeric s = [] →
        validate_hours_or_amount (.VStr s) = (true, 0)) ∧
    (∀ s : String, cleanNumeric s ≠ [] → pyFloat? (cleanNumeric s) = none →
        validate_hours_or_amount (.VStr s) = (false, 0)) ∧
    (∀ (s : String) (v : ℚ), pyFloat? (cleanNumeric s) = some v → v < 0 →
        validate_hours_or_amount (.VStr s) = (false, v)) ∧
    validate_hours_or_amount (.VStr "-50") = (false, -50) := by
  refine ⟨?_, ?_, ?_, by decide⟩
  · intro s h
    simp [validate_hours_or_amount, h]
  · intro s h hp
    simp [validate_hours_or_amount, h, hp]
  · intro s v hp hv
    have hne : cleanNumeric s ≠ [] := by
      intro hc
      rw [hc, show pyFloat? [] = none from by decide] at hp
      cases hp
    simp [validate_hours_or_amount, hne, hp, not_le.mpr hv]

/-- C5 witness: the third clause applied at the concrete input `"-50"`. -/
theorem C5_numeric_validator_witness :
    validate_hours_or_amount (.VStr "-50") = (false, -50) :=
  C5_numeric_validator.2.2.1 "-50" (-50) (by decide) (by decide)

/-- C8 counterexample: for input `"abc"` the validator returns
`(false, 0.0)`, but re-validating the normalized value `0.0` returns
`(true, 0.0)` — the valid flag is not preserved, refuting flag
idempotence as claimed. -/
theorem C8_counterexample :
    validate_hours_or_amount (.VStr "abc") = (false, 0) ∧
    validate_hours_or_amount (.VNum (validate_hours_or_amount (.VStr "abc")).2) = (true, 0) ∧
    (validate_hours_or_amount (.VNum (validate_hours_or_amount (.VStr "abc")).2)).1 ≠
      (validate_hours_or_amount (.VStr "abc")).1 := by
  decide

/-- C8 amended: the normalized value is idempotent for every input, and
whenever the first result is valid, re-validating the normalized value
reproduces the whole result (flag and value); only an invalid result can
change its flag on re-validation. -/
theorem C8_amended_idempotence (v : Value) :
    (validate_hours_or_amount (.VNum (validate_hours_or_amount v).2)).2 =
      (validate_hours_or_amount v).2 ∧
    ((validate_hours_or_amount v).1 = true →
      validate_hours_or_amount (.VNum (validate_hours_or_amount v).2) =
        validate_hours_or_amount v) := by
  refine ⟨rfl, fun h => ?_⟩
  have hnn := valid_amount_nonneg v h
  rw [validate_hours_VNum, decide_eq_true hnn]
  exact Prod.ext h.symm rfl

/-- C8 witness: re-validating the already-normalized value `5.0` yields
the same flag and value. -/
theorem C8_amended_idempotence_witness :
    validate_hours_or_amount (.VNum (validate_hours_or_amount (.VNum 5)).2) =
      validate_hours_or_amount (.VNum 5) :=
  (C8_amended_idempotence (.VNum 5)).2 (by decide)

/-- C6: with an empty employee directory, identity validation returns
valid with an empty candidate list for every record. -/
theorem C6_empty_directory (row : IdRow) :
    validate_employee_id row [] = (true, []) := rfl

/-- C7: identity matching is deterministic (pure function of directory and
record), and the candidate list preserves the relative order of the
directory collection: it is a sublist of the directory's identity keys in
directory order. -/
theorem C7_determinism_order (row : IdRow) (employees : List Employee) :
    validate_employee_id row employees = validate_employee_id row employees ∧
    List.Sublist (validate_employee_id row employees).2
      (employees.map (fun e => e.employee_id)) := by
  refine ⟨rfl, ?_⟩
  by_cases hne : employees = []
  · subst hne
    exact List.nil_sublist _
  · rw [validate_employee_id_eq row employees hne]
    split
    · exact List.nil_sublist _
    · exact (List.filter_sublist employees).map (fun e => e.employee_id)

/-- C1 counterexample: for the record with empty identity key and empty
names against the one-entity directory `[{7, "", ""}]`, the spec's
candidate rule (names equal after normalization, with no non-emptiness
requirement) predicts candidate list `["7"]` and hence an `Ambiguous`
outcome, but the code returns `(false, [])`, a `NoMatch`. -/
theorem C1_counterexample :
    specNameCandidates ⟨"", "", ""⟩ [⟨"7", "", ""⟩] = ["7"] ∧
    validate_employee_id ⟨"", "", ""⟩ [⟨"7", "", ""⟩] = (false, []) ∧
    classifyOutcome (validate_employee_id ⟨"", "", ""⟩ [⟨"7", "", ""⟩]) ≠
      MatchOutcome.Ambiguous ["7"] := by
  decide

/-- C1 amended: against a non-empty directory, a non-empty identity key
that trim-equals some entity's key validates as Exact with no candidates;
otherwise the identity is invalid and the candidate list contains exactly
the entities whose lowercase-trimmed names are **non-empty and** equal to
the record's, classified `NoMatch` when empty and `Ambiguous` otherwise. -/
theorem C1_amended_matching (row : IdRow) (employees : List Employee)
    (hne : employees ≠ []) :
    ((row.employee_id ≠ "" ∧
        ∃ e ∈ employees, keynorm e.employee_id = keynorm row.employee_id) →
      validate_employee_id row employees = (true, [])) ∧
    (¬(row.employee_id ≠ "" ∧
        ∃ e ∈ employees, keynorm e.employee_id = keynorm row.employee_id) →
      validate_employee_id row employees = (false, nameCandidates row employees) ∧
      classifyOutcome (validate_employee_id row employees) =
        (if nameCandidates row employees = [] then MatchOutcome.NoMatch
         else MatchOutcome.Ambiguous (nameCandidates row employees))) := by
  have hany : (employees.any
      (fun e => keynorm e.employee_id == keynorm row.employee_id)) = true ↔
      ∃ e ∈ employees, keynorm e.employee_id = keynorm row.employee_id := by
    simp [List.any_eq_true]
  constructor
  · intro h
    rw [validate_employee_id_eq row employees hne, if_pos ⟨h.1, hany.mpr h.2⟩]
  · intro h
    have hcond : ¬(row.employee_id ≠ "" ∧ (employees.any
        (fun e => keynorm e.employee_id == keynorm row.employee_id)) = true) := by
      intro hc
      exact h ⟨hc.1, hany.mp hc.2⟩
    rw [validate_employee_id_eq row employees hne, if_neg hcond]
    refine ⟨rfl, ?_⟩
    by_cases hnil : nameCandidates row employees = []
    · rw [hnil]
      simp [classifyOutcome]
    · rw [if_neg hnil]
      cases hcand : nameCandidates row employees with
      | nil => exact absurd hcand hnil
      | cons a l => simp [classifyOutcome]

/-- C1 witness: scenario A — empty key, names `jane`/`doe` against
directory `[{42, Jane, Doe}]` gives an invalid identity with candidate
list `["42"]`, classified as `Ambiguous(["42"])`, not an accept. -/
theorem C1_amended_matching_witness :
    validate_employee_id ⟨"", "jane", "doe"⟩ [⟨"42", "Jane", "Doe"⟩] =
      (false, nameCandidates ⟨"", "jane", "doe"⟩ [⟨"42", "Jane", "Doe"⟩]) ∧
    classifyOutcome (validate_employee_id ⟨"", "jane", "doe"⟩ [⟨"42", "Jane", "Doe"⟩]) =
      MatchOutcome.Ambiguous ["42"] := by
  have h := (C1_amended_matching ⟨"", "jane", "doe"⟩ [⟨"42", "Jane", "Doe"⟩]
    (by decide)).2 (by decide)
  exact ⟨h.1, by rw [h.2]; decide⟩

/-- The scenario-A/C2 example row: scheduled payroll empty, scheduled
hours `"5"`, time-clock hours `"3"`. -/
def c2ExampleRow : CsvRow :=
  ⟨[("Staff First Name", .VStr "jane"), ("Staff Last Name", .VStr "doe"),
    ("Scheduled Payroll", .VStr ""), ("Scheduled Hours", .VStr "5"),
    ("Time Clock Hours", .VStr "3")]⟩

/-- The chained Python `or` equals the spec's first-truthy selection. -/
lemma pyOr_chain_eq_spec (a b c : Value) :
    pyOr a (pyOr b (pyOr c (.VNum 0))) = specFirstNonEmptyNonZero [a, b, c] := by
  cases ha : a.truthy <;> cases hb : b.truthy <;> cases hc : c.truthy <;>
    simp [pyOr, specFirstNonEmptyNonZero, List.find?, ha, hb, hc]

/-- C2: the transformed record's amount is the first non-empty/non-zero
value among scheduled payroll, scheduled hours and time-clock hours
(literal zero when all are empty/zero); for `("", "5", "3")` the selected
amount is the cell `"5"`, which normalizes to `5.0`. -/
theorem C2_amount_precedence :
    (∀ (department : Option String) (row : CsvRow),
      (daxco_transform_row department row).hours_or_amount =
        specFirstNonEmptyNonZero
          [safe_get row "Scheduled Payroll", safe_get row "Scheduled Hours",
           safe_get row "Time Clock Hours"]) ∧
    (daxco_transform_row none c2ExampleRow).hours_or_amount = .VStr "5" ∧
    validate_hours_or_amount (.VStr "5") = (true, 5) := by
  refine ⟨fun department row => ?_, by decide, by decide⟩
  exact pyOr_chain_eq_spec _ _ _

/-- The C3 counterexample row: raw amount `"-50"`. -/
def c3NegRow : Output :=
  { employee_id := ""
    gross_to_net_code := "1"
    type_code := "REG"
    hours_or_amount := .VStr "-50"
    temporary_rate := ""
    distributed_dept_code := "4287" }

/-- A row whose raw amount `"5"` validates cleanly, for the C3 witness. -/
def c3FiveRow : Output :=
  { employee_id := ""
    gross_to_net_code := "1"
    type_code := "REG"
    hours_or_amount := .VStr "5"
    temporary_rate := ""
    distributed_dept_code := "4287" }

/-- C3 counterexample: after validation of a row with raw amount `"-50"`,
the record's amount field holds the **negative** number `-50.0` (with its
valid flag false) — the claimed non-negativity invariant fails. -/
theorem C3_counterexample :
    ((validate_transformation [c3NegRow] []).1.headD c3NegRow).hours_or_amount =
      .VNum (-50) ∧
    ¬(0 ≤ (-50 : ℚ)) ∧
    ((validate_transformation [c3NegRow] []).1.headD c3NegRow).hours_or_amount_valid =
      some false := by
  decide

/-- C3 amended: after validation every record's amount holds a numeric
(parsed) value, and that value is non-negative whenever the record's
amount-valid flag is true; before validation it may hold a raw value. -/
theorem C3_amended_numeric_amount (data : List Output) (employees : List Employee) :
    ∀ row ∈ (validate_transformation data employees).1,
      ∃ q : ℚ, row.hours_or_amount = .VNum q ∧
        (row.hours_or_amount_valid = some true → 0 ≤ q) := by
  intro row hrow
  obtain ⟨src, _, rfl⟩ := List.mem_map.mp hrow
  refine ⟨(validate_hours_or_amount src.hours_or_amount).2, rfl, fun hv => ?_⟩
  apply valid_amount_nonneg
  exact Option.some.inj hv

/-- C3 witness: the amended invariant at the concrete one-row input with
raw amount `"5"` and an empty directory. -/
theorem C3_amended_numeric_amount_witness :
    ∃ q : ℚ, (validate_row [] c3FiveRow).hours_or_amount = .VNum q ∧
      ((validate_row [] c3FiveRow).hours_or_amount_valid = some true → 0 ≤ q) :=
  C3_amended_numeric_amount [c3FiveRow] [] (validate_row [] c3FiveRow)
    (List.mem_singleton.mpr rfl)

/-- C9: every transformer output has empty `employee_id`,
`gross_to_net_code` `"1"`, `type_code` `"REG"` and empty
`temporary_rate`; consequently against any non-empty directory its
identity validation never takes the exact-key branch: it is invalid and
carries exactly the name-matching candidates. -/
theorem C9_transformer_defaults :
    (∀ (department : Option String) (row : CsvRow),
      (daxco_transform_row department row).employee_id = "" ∧
      (daxco_transform_row department row).gross_to_net_code = "1" ∧
      (daxco_transform_row department row).type_code = "REG" ∧
      (daxco_transform_row department row).temporary_rate = "") ∧
    (∀ (department : Option String) (row : CsvRow) (employees : List Employee),
      employees ≠ [] →
      validate_employee_id (idRowOf (daxco_transform_row department row)) employees =
        (false, nameCandidates (idRowOf (daxco_transform_row department row)) employees)) := by
  refine ⟨fun department row => ⟨rfl, rfl, rfl, rfl⟩, fun department row employees hne => ?_⟩
  rw [validate_employee_id_eq _ employees hne, if_neg]
  intro hc
  exact hc.1 rfl

/-- C9 witness: the identity consequence at the scenario-A row and the
one-entity directory `[{42, Jane, Doe}]`. -/
theorem C9_transformer_defaults_witness :
    validate_employee_id (idRowOf (daxco_transform_row none c2ExampleRow))
        [⟨"42", "Jane", "Doe"⟩] =
      (false, nameCandidates (idRowOf (daxco_transform_row none c2ExampleRow))
        [⟨"42", "Jane", "Doe"⟩]) :=
  C9_transformer_defaults.2 none c2ExampleRow [⟨"42", "Jane", "Doe"⟩] (by decide)

/-- C10: a record whose normalized (lowercased, trimmed) first and last
names are both empty acquires no name candidates — even against entities
with empty names — so against a non-empty directory, when no exact key
match applies, its identity validation is invalid with an empty candidate
list. -/
theorem C10_empty_names_no_candidates (row : IdRow) (employees : List Employee)
    (hne : employees ≠ [])
    (hf : lowstrip row.first_name = []) (hl : lowstrip row.last_name = [])
    (hkey : row.employee_id = "" ∨
      ∀ e ∈ employees, keynorm e.employee_id ≠ keynorm row.employee_id) :
    validate_employee_id row employees = (false, []) := by
  rw [validate_employee_id_eq row employees hne, if_neg, nameCandidates]
  · simp [hf]
  · rintro ⟨hid, hexact⟩
    rcases hkey with h | h
    · exact hid h
    · obtain ⟨e, hmem, heq⟩ := List.any_eq_true.mp hexact
      exact h e hmem (by simpa using heq)

/-- C10 witness: the record with key `""` and whitespace names against the
directory `[{7, "", ""}]`, whose entity names are also empty. -/
theorem C10_empty_names_no_candidates_witness :
    validate_employee_id ⟨"", " ", " "⟩ [⟨"7", "", ""⟩] = (false, []) :=
  C10_empty_names_no_candidates ⟨"", " ", " "⟩ [⟨"7", "", ""⟩]
    (by decide) (by decide) (by decide) (Or.inl rfl)

/-- Membership in the collected header indices. -/
lemma mem_headerIndices {lines : List String} {i : Nat} :
    i ∈ headerIndices lines ↔
      i < lines.length ∧ isHeaderLine (lines.getD i "") = true := by
  simp [headerIndices, List.mem_filter, List.mem_range]

/-- The collected indices are strictly increasing (scan order). -/
lemma headerIndices_pairwise (lines : List String) :
    (headerIndices lines).Pairwise (· < ·) :=
  (List.pairwise_lt_range _).sublist (List.filter_sublist _)

/-- In a strictly increasing list, the last element bounds every member. -/
lemma le_of_getLast?_pairwise :
    ∀ {l : List Nat}, l.Pairwise (· < ·) → ∀ {i : Nat}, l.getLast? = some i →
      ∀ j ∈ l, j ≤ i := by
  intro l
  induction l with
  | nil => intro _ i h; cases h
  | cons a t ih =>
      intro hp i hlast j hj
      cases t with
      | nil =>
          simp at hlast hj
          omega
      | cons b u =>
          rw [List.getLast?_cons_cons] at hlast
          cases hj with
          | head =>
              have hi : i ∈ b :: u := List.mem_of_getLast?_eq_some hlast
              have := (List.pairwise_cons.mp hp).1 i hi
              omega
          | tail _ hj =>
              exact ih (List.pairwise_cons.mp hp).2 hlast j hj

/-- C4: header location collects every line index whose first delimited
field approximately matches `staff first name` (case-insensitive, cutoff
0.7) and selects the **last** such index; when no line matches it fails
with the header-not-found error instead of returning an index. -/
theorem C4_header_selection (lines : List String) :
    (find_header_idx lines =
        .error "Could not find header row with 'Staff First Name'" ↔
      ∀ i < lines.length, isHeaderLine (lines.getD i "") = false) ∧
    (∀ i, find_header_idx lines = .ok i →
      i < lines.length ∧ isHeaderLine (lines.getD i "") = true ∧
      ∀ j < lines.length, isHeaderLine (lines.getD j "") = true → j ≤ i) := by
  unfold find_header_idx
  cases hlast : (headerIndices lines).getLast? with
  | none =>
      have hnil : headerIndices lines = [] := List.getLast?_eq_none_iff.mp hlast
      constructor
      · constructor
        · intro _ i hi
          by_contra hmatch
          have : i ∈ headerIndices lines :=
            mem_headerIndices.mpr ⟨hi, by simpa using hmatch⟩
          rw [hnil] at this
          cases this
        · intro _
          rfl
      · intro i h
        cases h
  | some a =>
      have hmem : a ∈ headerIndices lines := List.mem_of_getLast?_eq_some hlast
      have hbound := mem_headerIndices.mp hmem
      constructor
      · constructor
        · intro h
          cases h
        · intro hall
          have hfalse := hall a hbound.1
          rw [hbound.2] at hfalse
          cases hfalse
      · intro i h
        have hia : i = a := (Except.ok.inj h).symm
        subst hia
        refine ⟨hbound.1, hbound.2, fun j hj hmatch => ?_⟩
        exact le_of_getLast?_pairwise (headerIndices_pairwise lines) hlast j
          (mem_headerIndices.mpr ⟨hj, hmatch⟩)

/-- Scenario D: the header line occurs at index 1 (inside a metadata
block) and again at index 3 (the real header). -/
def scenarioD : List String :=
  ["Club Report,2025", "Staff First Name,Staff Last Name,Scheduled Hours",
   "summary,totals", "Staff First Name,Staff Last Name,Scheduled Hours",
   "Jane,Doe,5"]

set_option maxRecDepth 200000 in
/-- C4 witness: on the scenario-D file the locator returns index 3 — the
later of the two matching lines — and 3 bounds every matching index. -/
theorem C4_header_selection_witness :
    3 < scenarioD.length ∧ isHeaderLine (scenarioD.getD 3 "") = true ∧
    ∀ j < scenarioD.length, isHeaderLine (scenarioD.getD j "") = true → j ≤ 3 :=
  (C4_header_selection scenarioD).2 3 (by rfl)

end Daxco
